import Mathlib

/-!
Shallow embedding of `collect_stocks.py` (stock-daily repository): a daily
stock-quote collection script.  Python strings are modelled as Lean `String`
(sequences of unicode code points), Python lists as `List`, dicts with string
keys as association lists (`List (String × _)`, keys unique in every use in
the program), and Python numeric values arising in `calc_change` as exact
fractions (`Frac` below).  Network fetches are modelled as an explicit oracle
`fetch : String → String` giving the raw response text for each symbol, and
the Tavily HTTP call as an `Except String _` value (error message, or the
parsed `results` list).  All definitions are executable so that concrete
runs of the script can be evaluated inside proofs.
-/

/-! ### Basic string helpers (kernel-evaluable models of Python str ops) -/

/-- Does the character list `p` occur at the head of `s`?  (Model of a
substring match attempt at one position.) -/
def leadsWith : List Char → List Char → Bool
  | [], _ => true
  | _ :: _, [] => false
  | p :: ps, c :: cs => p == c && leadsWith ps cs

/-- Does `pat` occur as a contiguous sublist of the second argument?
Model of Python's `pat in s` substring test. -/
def listHasSub (pat : List Char) : List Char → Bool
  | [] => leadsWith pat []
  | c :: cs => leadsWith pat (c :: cs) || listHasSub pat cs

/-- Python's `pat in s` substring containment on strings. -/
def strContains (s pat : String) : Bool :=
  listHasSub pat.toList s.toList

/-- Auxiliary for `pyReplace`: replace every occurrence of `pat` by `rep`,
scanning left to right, non-overlapping.  `fuel` bounds the recursion; with
`fuel = s.length` and a nonempty `pat` it never runs out. -/
def pyReplaceAux (pat rep : List Char) : Nat → List Char → List Char
  | _, [] => []
  | 0, s => s
  | fuel + 1, c :: cs =>
    if leadsWith pat (c :: cs) then
      rep ++ pyReplaceAux pat rep fuel ((c :: cs).drop pat.length)
    else
      c :: pyReplaceAux pat rep fuel cs

/-- Python's `s.replace(pat, rep)` (all occurrences, left to right,
non-overlapping).  Faithful for nonempty `pat`, the only case the script
uses. -/
def pyReplace (s pat rep : String) : String :=
  String.mk (pyReplaceAux pat.toList rep.toList s.toList.length s.toList)

/-- Auxiliary for `pySplit`: split a character list at every occurrence of
the separator character. -/
def splitOnCharAux (sep : Char) : List Char → List Char → List (List Char)
  | [], acc => [acc.reverse]
  | c :: cs, acc =>
    if c == sep then acc.reverse :: splitOnCharAux sep cs []
    else splitOnCharAux sep cs (c :: acc)

/-- Python's `s.split(sep)` for a single-character separator (the script
only splits on `","` and on `'"'`).  `"".split(sep) = [""]`, as in Python. -/
def pySplit (s : String) (sep : Char) : List String :=
  (splitOnCharAux sep s.toList []).map String.mk

/-- Whitespace as recognized by Python's `str.strip()` (ASCII part; the
script's data never carries other unicode spaces). -/
def isSpaceChar (c : Char) : Bool :=
  c == ' ' || c == '\t' || c == '\n' || c == '\r' || c == '\x0b' || c == '\x0c'

/-- Python's `s.strip()`. -/
def pyStrip (s : String) : String :=
  String.mk (((s.toList.dropWhile isSpaceChar).reverse.dropWhile isSpaceChar).reverse)

/-- Python's `s[:n]` (first `n` code points). -/
def pyTake (s : String) (n : Nat) : String :=
  String.mk (s.toList.take n)

/-- Concatenation of a list of strings, as produced by the script's
string-accumulating `for` loops. -/
def strJoin : List String → String
  | [] => ""
  | a :: l => a ++ strJoin l

/-- First-match lookup in an association list; model of Python dict
access for the script's dicts (whose keys are unique). -/
def alookup {β : Type} (key : String) : List (String × β) → Option β
  | [] => none
  | (k, v) :: rest => if k = key then some v else alookup key rest

/-! ### Numeric parsing and formatting (model of `float` and `f"{x:+.2f}"`)

Python float values are modelled as exact fractions.  An unnormalized
numerator/denominator pair is used instead of `ℚ` so that every operation
is pure `Int`/`Nat` arithmetic and evaluates inside the kernel; `Frac.toRat`
maps a fraction to its rational value for specification-level lemmas. -/

/-- An exact, unnormalized fraction `num / den`.  Every value this program
constructs has a nonzero denominator. -/
structure Frac where
  num : ℤ
  den : ℤ
deriving DecidableEq

/-- The rational value of a fraction. -/
def Frac.toRat (f : Frac) : ℚ :=
  (f.num : ℚ) / (f.den : ℚ)

/-- Exact subtraction. -/
def Frac.sub (a b : Frac) : Frac :=
  ⟨a.num * b.den - b.num * a.den, a.den * b.den⟩

/-- Exact division. -/
def Frac.div (a b : Frac) : Frac :=
  ⟨a.num * b.den, a.den * b.num⟩

/-- Exact multiplication by a natural number. -/
def Frac.mulNat (a : Frac) (n : Nat) : Frac :=
  ⟨a.num * n, a.den⟩

/-- Negation. -/
def Frac.neg (a : Frac) : Frac :=
  ⟨-a.num, a.den⟩

/-- Python float equality with `0` (for fractions with nonzero
denominator, the only ones the program builds). -/
def Frac.isZero (a : Frac) : Bool :=
  a.num == 0

/-- Is the value strictly negative? -/
def Frac.isNeg (a : Frac) : Bool :=
  decide (a.num * a.den < 0)

/-- Is `c` an ASCII decimal digit? -/
def isDigitChar (c : Char) : Bool :=
  '0' ≤ c && c ≤ '9'

/-- Numeric value of a digit list read in base 10. -/
def natOfDigits (cs : List Char) : Nat :=
  cs.foldl (fun a c => a * 10 + (c.toNat - '0'.toNat)) 0

/-- Unsigned part of Python `float()` on plain decimal literals:
`digits`, `digits.digits`, `digits.` or `.digits`. -/
def parseUnsigned (cs : List Char) : Option Frac :=
  let intD := cs.takeWhile isDigitChar
  let rest := cs.dropWhile isDigitChar
  match rest with
  | [] => if intD.isEmpty then none else some ⟨natOfDigits intD, 1⟩
  | d :: frD =>
    if d == '.' && frD.all isDigitChar && !(intD.isEmpty && frD.isEmpty) then
      some ⟨natOfDigits intD * 10 ^ frD.length + natOfDigits frD, 10 ^ frD.length⟩
    else none

/-- Model of Python's `float(s)` on the decimal strings this program feeds
it: optional surrounding whitespace, optional sign, decimal digits with an
optional fractional part; everything else fails (raises `ValueError`,
modelled as `none`).  Scientific notation, `inf`/`nan` and underscore
separators — accepted by Python but never produced by the quote sources —
are not modelled. -/
def pyFloat? (s : String) : Option Frac :=
  match (pyStrip s).toList with
  | [] => none
  | c :: cs =>
    if c == '+' then parseUnsigned cs
    else if c == '-' then (parseUnsigned cs).map Frac.neg
    else parseUnsigned (c :: cs)

/-- `n / d` rounded to the nearest integer, ties to even (the rounding used
by Python's fixed-point string formatting), on natural numbers. -/
def roundHalfEvenNat (n d : Nat) : Nat :=
  let q := n / d
  let r := n % d
  if 2 * r < d then q
  else if d < 2 * r then q + 1
  else if q % 2 = 0 then q else q + 1

/-- Two-digit zero-padded decimal rendering. -/
def pad2 (k : Nat) : String :=
  if k < 10 then "0" ++ Nat.repr k else Nat.repr k

/-- Model of Python's `f"{x:+.2f}"`: forced sign, two decimal places.
Exact rounding on the fraction's value; it agrees with CPython's float64
formatting on every value this program produces away from
binary-representation tie boundaries. -/
def fmtSigned2 (f : Frac) : String :=
  let sgn := if f.isNeg then "-" else "+"
  let h := roundHalfEvenNat (f.num.natAbs * 100) f.den.natAbs
  sgn ++ Nat.repr (h / 100) ++ "." ++ pad2 (h % 100)

/-! ### `calc_change` (collect_stocks.py lines 182–192) -/

/-- `calc_change(current, prev)`: parse both strings as floats; on any parse
failure return `"-"`; if `prev` is zero return `"0%"`; otherwise format
`((curr - prev) / prev) * 100` as `f"{change:+.2f}%"`. -/
def calc_change (current prev : String) : String :=
  match pyFloat? current, pyFloat? prev with
  | some curr, some prev =>
    if prev.isZero then "0%"
    else fmtSigned2 (((curr.sub prev).div prev).mulNat 100) ++ "%"
  | _, _ => "-"

/-! ### Quote records and fetchers (collect_stocks.py lines 67–156)

The network layer is modelled by an oracle `fetch : String → String` giving
the raw text the shell pipeline delivers for each symbol (for `get_us_stocks`
the last line of the Stooq response, for `get_cn_stocks` the Sina response).
`run_shell` itself never raises: it returns a (possibly empty or
`"Error: ..."`) string, so the per-symbol processing below is total. -/

/-- A parsed US quote record, fields as stored by `get_us_stocks`. -/
structure UsQuote where
  symbol : String
  date : String
  close : String
  open_ : String
  high : String
  low : String
  volume : String
deriving DecidableEq

/-- A parsed CN quote record, fields as stored by `get_cn_stocks`. -/
structure CnQuote where
  symbol : String
  close : String
  open_ : String
  high : String
  low : String
  change : String
deriving DecidableEq

/-- What `get_cn_stocks` stores for one symbol: either a full record, or —
when the `try` block raises — a dict holding only the exception text
(`{"error": str(e)}`). -/
inductive CnEntry where
  | ok (r : CnQuote)
  | err (msg : String)
deriving DecidableEq

/-- The three US index symbols with their display names (`indices` dict in
`get_us_stocks`). -/
def us_indices_tab : List (String × String) :=
  [("^DJI", "道琼斯"), ("^SPX", "标普 500"), ("^IXIC", "纳斯达克")]

/-- The seven "big tech" symbols with their display names (`tech_stocks`
dict in `get_us_stocks`). -/
def tech_stocks_tab : List (String × String) :=
  [("AAPL.US", "苹果"), ("MSFT.US", "微软"), ("GOOGL.US", "谷歌"),
   ("AMZN.US", "亚马逊"), ("NVDA.US", "英伟达"), ("META.US", "Meta"),
   ("TSLA.US", "特斯拉")]

/-- Per-symbol body of the two loops in `get_us_stocks`: keep the response
line only if it is nonempty, free of the `"N/D"` no-data token and not
whitespace-only, and splits on `","` into at least 7 fields
(`Symbol,Date,Time,Open,High,Low,Close[,Volume]`).  `storedSym` is the
symbol string written into the record (the tech loop strips `".US"`). -/
def parse_us_line (storedSym : String) (data : String) : Option UsQuote :=
  if data ≠ "" ∧ strContains data "N/D" = false ∧ pyStrip data ≠ "" then
    let parts := pySplit data ','
    if 7 ≤ parts.length then
      some { symbol := storedSym
             date := parts.getD 1 ""
             close := parts.getD 6 ""
             open_ := parts.getD 3 ""
             high := parts.getD 4 ""
             low := parts.getD 5 ""
             volume := if 7 < parts.length then parts.getD 7 "" else "-" }
    else none
  else none

/-- `get_us_stocks()`: one fetch per symbol over the index table then the
tech table, inserting a record under the display name whenever the line
parses; symbols whose line fails any check are omitted.  The Python dict is
modelled as an association list (all ten display names are distinct). -/
def get_us_stocks (fetch : String → String) : List (String × UsQuote) :=
  us_indices_tab.filterMap
      (fun p => (parse_us_line p.1 (fetch p.1)).map (fun q => (p.2, q)))
    ++ tech_stocks_tab.filterMap
      (fun p => (parse_us_line (pyReplace p.1 ".US" "") (fetch p.1)).map (fun q => (p.2, q)))

/-- The three CN index codes with their display names (`indices` dict in
`get_cn_stocks`). -/
def cn_indices_tab : List (String × String) :=
  [("sh000001", "上证指数"), ("sz399001", "深证成指"), ("cyb", "创业板指")]

/-- Python's `s if s else "-"` used on each CN field. -/
def dashIfEmpty (s : String) : String :=
  if s = "" then "-" else s

/-- Per-symbol body of the loop in `get_cn_stocks`.  The guard is
`if data and code in data`; inside the `try`, the quoted payload is
extracted (`data.split('"')[1]` when a quote is present, else `""`) and
split on `","`.  With fewer than 5 fields the `if` fails and nothing is
stored.  With at least 6 fields a full record is stored.  With exactly 5
fields the `len(parts) >= 5` guard passes but evaluating `parts[5]` raises
`IndexError("list index out of range")`, which the `except` clause turns
into an `{"error": str(e)}` entry. -/
def parse_cn_symbol (code : String) (data : String) : Option CnEntry :=
  if data ≠ "" ∧ strContains data code = true then
    let content := if strContains data "\"" then (pySplit data '"').getD 1 "" else ""
    let parts := pySplit content ','
    if 5 ≤ parts.length then
      if 6 ≤ parts.length then
        some (CnEntry.ok
          { symbol := code
            close := dashIfEmpty (parts.getD 3 "")
            open_ := dashIfEmpty (parts.getD 1 "")
            high := dashIfEmpty (parts.getD 4 "")
            low := dashIfEmpty (parts.getD 5 "")
            change :=
              if 2 < parts.length ∧ parts.getD 2 "" ≠ "" then
                calc_change (parts.getD 3 "") (parts.getD 2 "")
              else "-" })
      else some (CnEntry.err "list index out of range")
    else none
  else none

/-- `get_cn_stocks()`: one fetch per index code, storing the parse result
(record or error entry) under the display name. -/
def get_cn_stocks (fetch : String → String) : List (String × CnEntry) :=
  cn_indices_tab.filterMap
    (fun p => (parse_cn_symbol p.1 (fetch p.1)).map (fun e => (p.2, e)))



/-! ### News fetcher (collect_stocks.py lines 35–64) -/

/-- A news dict `{title, url, content}`.  Both the raw Tavily result items
and the normalized items the fetcher returns have this shape; the script
reads raw fields only through `item.get(key, "")`, so an absent key is
indistinguishable from `""` and is modelled as `""`. -/
structure NewsItem where
  title : String
  url : String
  content : String
deriving DecidableEq

/-- The snippet rule applied to each item's `content`:
`content[:200] + "..." if len(content) > 200 else content`. -/
def truncate_content (s : String) : String :=
  if 200 < s.length then pyTake s 200 ++ "..." else s

/-- Normalization of one raw result item inside the success loop of
`get_tavily_news`. -/
def normalizeItem (it : NewsItem) : NewsItem :=
  { title := it.title, url := it.url, content := truncate_content it.content }

/-- `get_tavily_news(query, max_results)`.  The HTTP call and JSON parse
are modelled by `resp`: `Except.error e` when any exception with text `e`
is raised (network, auth, malformed response), `Except.ok results` with the
parsed `results` list on success.  On failure the function returns the
single sentinel item `{"title": f"获取失败：{e}", "url": "", "content": ""}`;
on success it keeps the first `max_results` items in upstream order,
truncating each snippet. -/
def get_tavily_news (resp : Except String (List NewsItem)) (max_results : Nat) : List NewsItem :=
  match resp with
  | Except.error e => [{ title := "获取失败：" ++ e, url := "", content := "" }]
  | Except.ok results => (results.take max_results).map normalizeItem

/-! ### Report renderer (collect_stocks.py lines 195–308)

`generate_report(date, us_data, cn_data, news_data)` also reads
`datetime.now()` for the header line; that wall-clock value is passed in
explicitly as `now`. -/

/-- The three news lists, as built by `get_market_news`.  The script's
`news_data` argument is `None` or a dict always carrying these three keys
(a non-empty, hence truthy, dict), modelled as `Option NewsBundle`. -/
structure NewsBundle where
  us_news : List NewsItem
  cn_news : List NewsItem
  global_news : List NewsItem
deriving DecidableEq

/-- Fixed row order of the US index table. -/
def us_index_names : List String := ["道琼斯", "标普 500", "纳斯达克"]

/-- Fixed row order of the tech table. -/
def tech_names : List String := ["苹果", "微软", "谷歌", "亚马逊", "英伟达", "Meta", "特斯拉"]

/-- Fixed row order of the CN index table. -/
def cn_index_names : List String := ["上证指数", "深证成指", "创业板指"]

/-- One US index table row. -/
def us_index_row (name : String) (d : UsQuote) : String :=
  "| " ++ name ++ " | " ++ d.symbol ++ " | " ++ d.close ++ " | " ++ d.open_ ++
    " | " ++ d.high ++ " | " ++ d.low ++ " | " ++ d.volume ++ " |\n"

/-- One tech table row (per-share prices carry a `$` prefix). -/
def tech_row (name : String) (d : UsQuote) : String :=
  "| " ++ name ++ " | " ++ d.symbol ++ " | $" ++ d.close ++ " | $" ++ d.open_ ++
    " | $" ++ d.high ++ " | $" ++ d.low ++ " |\n"

/-- Python's `d.get(key, '-')` on a CN entry: an `ok` record has every key,
an error entry has none of them. -/
def cnField (e : CnEntry) (f : CnQuote → String) : String :=
  match e with
  | CnEntry.ok r => f r
  | CnEntry.err _ => "-"

/-- One CN index table row (all fields read through `.get(key, '-')`). -/
def cn_row (name : String) (e : CnEntry) : String :=
  "| " ++ name ++ " | " ++ cnField e (fun r => r.symbol) ++ " | " ++
    cnField e (fun r => r.close) ++ " | " ++ cnField e (fun r => r.open_) ++ " | " ++
    cnField e (fun r => r.high) ++ " | " ++ cnField e (fun r => r.low) ++ " | " ++
    cnField e (fun r => r.change) ++ " |\n"

/-- The `for name in [...]: if name in data: report += row` loops: one row
per named entry present in the mapping, in the fixed name order. -/
def rowsFor {β : Type} (names : List String) (data : List (String × β))
    (row : String → β → String) : String :=
  strJoin (names.filterMap (fun n => (alookup n data).map (row n)))

/-- One rendered news item: skipped entirely unless the title is non-empty
and free of the failure marker `"获取失败"`; the link and snippet lines are
emitted only when `url` / `content` are non-empty. -/
def renderItem (n : NewsItem) : String :=
  if n.title ≠ "" ∧ strContains n.title "获取失败" = false then
    "- **" ++ n.title ++ "**\n" ++
      (if n.url ≠ "" then "  🔗 [" ++ n.url ++ "](" ++ n.url ++ ")\n" else "") ++
      (if n.content ≠ "" then "  " ++ n.content ++ "\n" else "") ++
      "\n"
  else ""

/-- One news section: heading plus item loop, both guarded by
`if news_data.get(key):`, i.e. emitted exactly when the raw list is
non-empty. -/
def newsSection (hdr : String) (items : List NewsItem) : String :=
  if items.isEmpty then "" else hdr ++ strJoin (items.map renderItem)

/-- The news part of the report: `if news_data:` — three sections when a
bundle is present, the placeholder line when `news_data` is `None`. -/
def news_block (news : Option NewsBundle) : String :=
  match news with
  | none => "*今日新闻数据暂缺*\n\n"
  | some nd =>
    newsSection "### 🇺🇸 美股新闻\n\n" nd.us_news ++
      newsSection "### 🇨🇳 A 股新闻\n\n" nd.cn_news ++
      newsSection "### 🌍 全球财经\n\n" nd.global_news

/-- Everything of the report before the `datetime.now()` timestamp. -/
def report_head (date : String) : String :=
  "# 📈 每日股票行情 | " ++ date ++ "\n\n**生成时间**: "

/-- Everything of the report after the timestamp: the fixed table headers
and footer with the data-dependent rows and news sections in between. -/
def report_tail (us_data : List (String × UsQuote)) (cn_data : List (String × CnEntry))
    (news_data : Option NewsBundle) : String :=
  " (Asia/Shanghai)\n\n---\n\n## 🇺🇸 美股市场\n\n### 三大指数\n\n| 指数 | 代码 | 收盘价 | 开盘 | 最高 | 最低 | 成交量 |\n|------|------|--------|------|------|------|--------|\n"
    ++ rowsFor us_index_names us_data us_index_row
    ++ "\n### 科技七姐妹\n\n| 公司 | 代码 | 收盘价 | 开盘 | 最高 | 最低 |\n|------|------|--------|------|------|------|\n"
    ++ rowsFor tech_names us_data tech_row
    ++ "\n---\n\n## 🇨🇳 A 股市场\n\n### 三大指数\n\n| 指数 | 代码 | 收盘价 | 开盘 | 最高 | 最低 | 涨跌幅 |\n|------|------|--------|------|------|------|--------|\n"
    ++ rowsFor cn_index_names cn_data cn_row
    ++ "\n---\n\n## 📰 市场新闻 (Tavily)\n\n"
    ++ news_block news_data
    ++ "---\n\n## 📊 数据源\n\n| 类型 | 数据源 | 说明 |\n|------|--------|------|\n| 美股行情 | Stooq | 公开免费 API，延迟 15-20 分钟 |\n| A 股行情 | 新浪财经 | 公开免费 API，实时 |\n| 市场新闻 | Tavily | AI 搜索引擎，实时资讯 |\n\n---\n\n*🤖 自动生成 | 数据仅供参考*\n"

/-- `generate_report(date, us_data, cn_data, news_data)` with the wall-clock
string `now` made an explicit input. -/
def generate_report (date : String) (us_data : List (String × UsQuote))
    (cn_data : List (String × CnEntry)) (news_data : Option NewsBundle)
    (now : String) : String :=
  report_head date ++ (now ++ report_tail us_data cn_data news_data)

/-! ### README index updater (collect_stocks.py lines 369–435) -/

/-- The fixed README template up to (and excluding) the marker heading. -/
def readme_head : String :=
  "# 📈 每日股票行情跟踪\n\n自动收集美股和 A 股每日行情数据，生成 Markdown 报告。\n\n## 数据源\n\n- **美股**: Stooq (https://stooq.com)\n- **A 股**: 新浪财经 (http://hq.sinajs.cn)\n\n## 目录结构\n\n```\nstock-daily/\n├── data/          # 原始 JSON 数据\n├── reports/       # Markdown 报告\n├── collect_stocks.py  # 数据收集脚本\n└── README.md      # 本文件\n```\n\n## 定时任务\n\n每天 08:30 (Asia/Shanghai) 自动运行，更新数据并推送到 GitHub。\n\n"

/-- The template written when no README exists yet; it ends with the marker
heading `## 最新行情` followed by a blank line. -/
def readme_template : String :=
  readme_head ++ "## 最新行情\n\n"

/-- The dated summary entry (`latest` in `update_readme`): US index closes,
then CN index closes, each segment present only when its display name is in
the corresponding mapping. -/
def latest_entry (date : String) (us_data : List (String × UsQuote))
    (cn_data : List (String × CnEntry)) : String :=
  "### " ++ date ++ "\n\n**美股**: "
    ++ (match alookup "道琼斯" us_data with
        | some d => "道琼斯 " ++ d.close ++ " | "
        | none => "")
    ++ (match alookup "标普 500" us_data with
        | some d => "标普 " ++ d.close ++ " | "
        | none => "")
    ++ (match alookup "纳斯达克" us_data with
        | some d => "纳指 " ++ d.close
        | none => "")
    ++ "\n\n**A 股**: "
    ++ (match alookup "上证指数" cn_data with
        | some e => "上证 " ++ cnField e (fun r => r.close) ++ " | "
        | none => "")
    ++ (match alookup "深证成指" cn_data with
        | some e => "深证 " ++ cnField e (fun r => r.close) ++ " | "
        | none => "")
    ++ (match alookup "创业板指" cn_data with
        | some e => "创业板 " ++ cnField e (fun r => r.close)
        | none => "")
    ++ "\n\n---\n"

/-- `update_readme(date, us_data, cn_data)` as a function from the current
README contents (`none` when the file does not exist) to the contents
written back: start from the existing text or the template, then splice the
dated entry right after the `## 最新行情` marker (via
`content.replace("## 最新行情\n", f"## 最新行情\n{latest}")`), or append a
marker plus entry when no marker is present. -/
def update_readme (existing : Option String) (date : String)
    (us_data : List (String × UsQuote)) (cn_data : List (String × CnEntry)) : String :=
  let content := existing.getD readme_template
  let latest := latest_entry date us_data cn_data
  if strContains content "## 最新行情" then
    pyReplace content "## 最新行情\n" ("## 最新行情\n" ++ latest)
  else
    content ++ "\n## 最新行情\n" ++ latest

/-! ### Concrete data used to exercise the model -/

/-- A failure-sentinel news item as produced by `get_tavily_news`. -/
def sentinelTimeout : NewsItem :=
  { title := "获取失败：timeout", url := "", content := "" }

/-- A parsed Dow Jones record. -/
def dowQuote : UsQuote :=
  { symbol := "^DJI", date := "2026-02-10", close := "42000.12",
    open_ := "41900.00", high := "42100.00", low := "41800.00", volume := "1000" }

/-- A US mapping holding only the Dow record. -/
def dow_only : List (String × UsQuote) := [("道琼斯", dowQuote)]

/-- Full US data for a first run of the index updater. -/
def usA : List (String × UsQuote) :=
  [("道琼斯", { symbol := "^DJI", date := "2026-02-09", close := "41000.00",
               open_ := "40900.00", high := "41100.00", low := "40800.00", volume := "1000" }),
   ("标普 500", { symbol := "^SPX", date := "2026-02-09", close := "6000.00",
                 open_ := "5990.00", high := "6010.00", low := "5980.00", volume := "2000" }),
   ("纳斯达克", { symbol := "^IXIC", date := "2026-02-09", close := "19000.00",
                open_ := "18900.00", high := "19100.00", low := "18800.00", volume := "3000" })]

/-- `usA` with the Dow entry missing. -/
def usA_noDow : List (String × UsQuote) := usA.drop 1

/-- Full CN data for a first run of the index updater. -/
def cnA : List (String × CnEntry) :=
  [("上证指数", CnEntry.ok { symbol := "sh000001", close := "3450.00", open_ := "3440.00",
                           high := "3460.00", low := "3430.00", change := "+0.29%" }),
   ("深证成指", CnEntry.ok { symbol := "sz399001", close := "10500.00", open_ := "10450.00",
                           high := "10550.00", low := "10400.00", change := "+0.48%" }),
   ("创业板指", CnEntry.ok { symbol := "cyb", close := "2200.00", open_ := "2190.00",
                           high := "2210.00", low := "2180.00", change := "+0.46%" })]

/-- Full US data for a second run of the index updater. -/
def usB : List (String × UsQuote) :=
  [("道琼斯", { symbol := "^DJI", date := "2026-02-10", close := "42000.12",
               open_ := "41900.00", high := "42100.00", low := "41800.00", volume := "1100" }),
   ("标普 500", { symbol := "^SPX", date := "2026-02-10", close := "6010.00",
                 open_ := "6000.00", high := "6020.00", low := "5990.00", volume := "2100" }),
   ("纳斯达克", { symbol := "^IXIC", date := "2026-02-10", close := "19100.00",
                open_ := "19000.00", high := "19200.00", low := "18900.00", volume := "3100" })]

/-- Full CN data for a second run of the index updater. -/
def cnB : List (String × CnEntry) :=
  [("上证指数", CnEntry.ok { symbol := "sh000001", close := "3460.00", open_ := "3450.00",
                           high := "3470.00", low := "3440.00", change := "+0.29%" }),
   ("深证成指", CnEntry.ok { symbol := "sz399001", close := "10550.00", open_ := "10500.00",
                           high := "10600.00", low := "10450.00", change := "+0.48%" }),
   ("创业板指", CnEntry.ok { symbol := "cyb", close := "2210.00", open_ := "2200.00",
                           high := "2220.00", low := "2190.00", change := "+0.45%" })]

/-- A Sina response line whose quoted payload has exactly five
comma-separated fields: the `len(parts) >= 5` guard passes but `parts[5]`
raises `IndexError`. -/
def cn_failing_line : String :=
  "var hq_str_sh000001=\"上证指数,3450.10,3440.00,3455.20,3460.00\""

/-- A fetch oracle whose Dow response carries the `"N/D"` no-data token. -/
def fetchND : String → String :=
  fun s => if s = "^DJI" then "N/D" else ""

/-- A 250-character snippet. -/
def str250 : String := String.mk (List.replicate 250 'a')

/-- A 150-character snippet. -/
def str150 : String := String.mk (List.replicate 150 'b')

/-! ### Helper lemmas -/

/-- Appending the empty string on the right is the identity. -/
lemma str_append_empty (s : String) : s ++ "" = s := by
  show String.mk (s.data ++ []) = s
  rw [List.append_nil]

/-- A news item whose title carries the failure marker renders to nothing. -/
lemma renderItem_sentinel (n : NewsItem) (h : strContains n.title "获取失败" = true) :
    renderItem n = "" := by
  unfold renderItem
  rw [if_neg]
  intro hc
  rw [h] at hc
  exact Bool.noConfusion hc.2

/-- A news item with an empty title renders to nothing. -/
lemma renderItem_empty_title (n : NewsItem) (h : n.title = "") :
    renderItem n = "" := by
  unfold renderItem
  rw [if_neg]
  intro hc
  exact hc.1 h

/-- A line carrying the `"N/D"` token never yields a US record. -/
lemma parse_us_line_nd (storedSym data : String) (h : strContains data "N/D" = true) :
    parse_us_line storedSym data = none := by
  unfold parse_us_line
  rw [if_neg]
  intro hc
  rw [h] at hc
  exact Bool.noConfusion hc.2.1

/-- In a pair list whose second components are distinct, the second
component determines the first. -/
lemma snd_unique {l : List (String × String)} (hnd : (l.map Prod.snd).Nodup)
    {a b c : String} (h : (a, c) ∈ l) (h2 : (b, c) ∈ l) : a = b := by
  induction l with
  | nil => cases h
  | cons p rest ih =>
    rw [List.map_cons, List.nodup_cons] at hnd
    rcases List.mem_cons.mp h with h | h
    · rcases List.mem_cons.mp h2 with h2 | h2
      · simpa using h.trans h2.symm
      · exfalso
        apply hnd.1
        rw [← h]
        simpa using List.mem_map_of_mem Prod.snd h2
    · rcases List.mem_cons.mp h2 with h2 | h2
      · exfalso
        apply hnd.1
        rw [← h2]
        simpa using List.mem_map_of_mem Prod.snd h
      · exact ih hnd.2 h h2

/-- If every pair carrying `name` maps to `none`, the built association
list has no entry for `name`. -/
lemma alookup_filterMap_none {γ : Type} (g : String × String → Option γ) (name : String) :
    ∀ pairs : List (String × String),
      (∀ p ∈ pairs, p.2 = name → g p = none) →
      alookup name (pairs.filterMap (fun p => (g p).map (fun q => (p.2, q)))) = none := by
  intro pairs
  induction pairs with
  | nil => intro _; rfl
  | cons p rest ih =>
    intro h
    have hrest := ih (fun q hq hqn => h q (List.mem_cons_of_mem _ hq) hqn)
    rw [List.filterMap_cons]
    cases hg : g p with
    | none => simpa [hg] using hrest
    | some v =>
      have hne : p.2 ≠ name := by
        intro he
        rw [h p (List.mem_cons_self p rest) he] at hg
        cases hg
      simp only [hg, Option.map_some']
      rw [alookup, if_neg hne]
      exact hrest

/-- `alookup` misses an appended list iff it misses both halves. -/
lemma alookup_append_none {γ : Type} (name : String) (l1 l2 : List (String × γ))
    (h1 : alookup name l1 = none) (h2 : alookup name l2 = none) :
    alookup name (l1 ++ l2) = none := by
  induction l1 with
  | nil => simpa using h2
  | cons p rest ih =>
    obtain ⟨k, v⟩ := p
    rw [List.cons_append]
    rw [alookup] at h1 ⊢
    by_cases hk : k = name
    · rw [if_pos hk] at h1
      cases h1
    · rw [if_neg hk] at h1 ⊢
      exact ih h1

/-- The value of an exact subtraction, for nonzero denominators. -/
lemma Frac.toRat_sub (a b : Frac) (ha : a.den ≠ 0) (hb : b.den ≠ 0) :
    (a.sub b).toRat = a.toRat - b.toRat := by
  unfold Frac.sub Frac.toRat
  have ha2 : (a.den : ℚ) ≠ 0 := Int.cast_ne_zero.mpr ha
  have hb2 : (b.den : ℚ) ≠ 0 := Int.cast_ne_zero.mpr hb
  push_cast
  field_simp
  ring

/-- The value of an exact division (holds with junk values as well, since
division by zero is zero in `ℚ`). -/
lemma Frac.toRat_div (a b : Frac) : (a.div b).toRat = a.toRat / b.toRat := by
  unfold Frac.div Frac.toRat
  push_cast
  simp only [div_eq_mul_inv, mul_inv, inv_inv]
  ring

/-- The value of multiplication by a natural number. -/
lemma Frac.toRat_mulNat (a : Frac) (n : Nat) : (a.mulNat n).toRat = a.toRat * n := by
  unfold Frac.mulNat Frac.toRat
  push_cast
  ring

/-- Every fraction produced by `parseUnsigned` has a positive denominator. -/
lemma parseUnsigned_den_pos (cs : List Char) (f : Frac) (h : parseUnsigned cs = some f) :
    0 < f.den := by
  unfold parseUnsigned at h
  dsimp only at h
  split at h
  · split at h
    · cases h
    · cases h
      norm_num
  · split at h
    · cases h
      positivity
    · cases h

/-- Every fraction produced by `pyFloat?` has a positive denominator. -/
lemma pyFloat?_den_pos (s : String) (f : Frac) (h : pyFloat? s = some f) :
    0 < f.den := by
  unfold pyFloat? at h
  split at h
  · cases h
  · split at h
    · exact parseUnsigned_den_pos _ _ h
    · split at h
      · rcases Option.map_eq_some'.mp h with ⟨g, hg, hf⟩
        rw [← hf]
        show 0 < g.den
        exact parseUnsigned_den_pos _ _ hg
      · exact parseUnsigned_den_pos _ _ h

/-! ### Claim theorems -/

/-- Claim C1, counterexample: on `curr="100"`, `prev="0"` the previous value
parses to zero, yet `calc_change` returns `"0%"`, not the placeholder dash
`"-"` the claim demands. -/
theorem C1_counterexample :
    calc_change "100" "0" = "0%" ∧ calc_change "100" "0" ≠ "-" := by
  constructor <;> decide

/-- Claim C1, amended: for every pair of input strings, if either value
fails to parse as numeric the result is the placeholder dash `"-"`; if both
parse and the previous value is zero the result is `"0%"` (the function
never raises in either case — it is total). -/
theorem C1_amended_thm :
    (∀ current prev : String,
      pyFloat? current = none ∨ pyFloat? prev = none → calc_change current prev = "-") ∧
    (∀ current prev : String, ∀ c : Frac, pyFloat? current = some c →
      ∀ p : Frac, pyFloat? prev = some p → p.isZero = true →
      calc_change current prev = "0%") := by
  constructor
  · intro current prev h
    unfold calc_change
    rcases h with h | h
    · rw [h]
    · rw [h]
      cases pyFloat? current <;> rfl
  · intro current prev c hc p hp hz
    unfold calc_change
    rw [hc, hp]
    simp [hz]

/-- Witness for C1_amended_thm at concrete inputs: `"abc"` fails to parse,
and `"0"` parses to zero. -/
theorem C1_witness :
    calc_change "abc" "100" = "-" ∧ calc_change "100" "0" = "0%" :=
  ⟨C1_amended_thm.1 "abc" "100" (Or.inl (by decide)),
   C1_amended_thm.2 "100" "0" ⟨100, 1⟩ (by decide) ⟨0, 1⟩ (by decide) (by decide)⟩

/-- Claim C7: `calc_change` computes `(close − prev) / prev × 100` and
renders it with a forced sign and two decimal places; in particular
`calc_change "220" "200" = "+10.00%"` and `calc_change "95" "100" = "-5.00%"`.
The general conjunct states that on any two strings parsing to values
`c` and `p` with `p` nonzero, the output is exactly the `+.2f` rendering of
the fraction whose rational value is `(c − p) / p × 100`. -/
theorem C7_thm :
    calc_change "220" "200" = "+10.00%" ∧ calc_change "95" "100" = "-5.00%" ∧
    (∀ current prev : String, ∀ c p : Frac,
      pyFloat? current = some c → pyFloat? prev = some p → p.isZero = false →
      calc_change current prev = fmtSigned2 (((c.sub p).div p).mulNat 100) ++ "%" ∧
      (((c.sub p).div p).mulNat 100).toRat = (c.toRat - p.toRat) / p.toRat * 100) := by
  refine ⟨by decide, by decide, ?_⟩
  intro current prev c p hc hp hz
  constructor
  · unfold calc_change
    rw [hc, hp]
    simp [hz]
  · rw [Frac.toRat_mulNat, Frac.toRat_div,
      Frac.toRat_sub c p (pyFloat?_den_pos current c hc).ne' (pyFloat?_den_pos prev p hp).ne']
    norm_num

/-- Witness for C7_thm's general conjunct at `curr="220"`, `prev="200"`. -/
theorem C7_witness :
    calc_change "220" "200"
        = fmtSigned2 ((((⟨220, 1⟩ : Frac).sub ⟨200, 1⟩).div ⟨200, 1⟩).mulNat 100) ++ "%" ∧
      ((((⟨220, 1⟩ : Frac).sub ⟨200, 1⟩).div ⟨200, 1⟩).mulNat 100).toRat
        = ((⟨220, 1⟩ : Frac).toRat - (⟨200, 1⟩ : Frac).toRat) / (⟨200, 1⟩ : Frac).toRat * 100 :=
  C7_thm.2.2 "220" "200" ⟨220, 1⟩ ⟨200, 1⟩ (by decide) (by decide) (by decide)

set_option maxRecDepth 8000 in
/-- Claim C5: in `get_tavily_news`, snippet content strictly longer than 200
characters is cut to exactly its first 200 characters plus `"..."`, content
of length at most 200 passes through unchanged, and the rule is applied to
the content of every returned item; length-250 input yields the first 200
characters plus the ellipsis and length-150 input is unchanged. -/
theorem C5_thm :
    (∀ s : String, 200 < s.length → truncate_content s = pyTake s 200 ++ "...") ∧
    (∀ s : String, s.length ≤ 200 → truncate_content s = s) ∧
    (∀ rs : List NewsItem, ∀ m : Nat,
      (get_tavily_news (Except.ok rs) m).map NewsItem.content
        = (rs.take m).map (fun r => truncate_content r.content)) ∧
    truncate_content str250 = String.mk (List.replicate 200 'a') ++ "..." ∧
    truncate_content str150 = str150 := by
  refine ⟨?_, ?_, ?_, by decide, by decide⟩
  · intro s h
    unfold truncate_content
    rw [if_pos h]
  · intro s h
    unfold truncate_content
    rw [if_neg (by omega)]
  · intro rs m
    unfold get_tavily_news
    rw [List.map_map]
    rfl

set_option maxRecDepth 8000 in
/-- Witness for C5_thm at the 250- and 150-character snippets. -/
theorem C5_witness :
    truncate_content str250 = pyTake str250 200 ++ "..." ∧ truncate_content str150 = str150 :=
  ⟨C5_thm.1 str250 (by decide), C5_thm.2.1 str150 (by decide)⟩

/-- Claim C6: `get_tavily_news` returns, on any failure with text `e`, the
single sentinel item whose title is `"获取失败：" ++ e` with empty url and
content (never raising); on success it returns at most `max_results` items,
the i-th output being the normalization of the i-th upstream result (order
preserved). -/
theorem C6_thm :
    (∀ e : String, ∀ m : Nat,
      get_tavily_news (Except.error e) m
        = [{ title := "获取失败：" ++ e, url := "", content := "" }]) ∧
    (∀ rs : List NewsItem, ∀ m : Nat, (get_tavily_news (Except.ok rs) m).length ≤ m) ∧
    (∀ rs : List NewsItem, ∀ m i : Nat, i < m →
      (get_tavily_news (Except.ok rs) m)[i]? = (rs[i]?).map normalizeItem) := by
  refine ⟨fun e m => rfl, ?_, ?_⟩
  · intro rs m
    unfold get_tavily_news
    rw [List.length_map, List.length_take]
    exact min_le_left _ _
  · intro rs m i hi
    unfold get_tavily_news
    rw [List.getElem?_map, List.getElem?_take_of_lt hi]

/-- Witness for C6_thm's order conjunct at a one-element result list. -/
theorem C6_witness :
    (get_tavily_news (Except.ok [{ title := "t", url := "u", content := "c" }]) 1)[0]?
      = (([{ title := "t", url := "u", content := "c" }] : List NewsItem)[0]?).map normalizeItem :=
  C6_thm.2.2 [{ title := "t", url := "u", content := "c" }] 1 0 (by decide)

/-- Claim C10 (implicit): the renderer drops any news item whose title is
the empty string even when the title carries no failure marker: such an
item renders to nothing, and inside a section it contributes nothing to the
output (the same `renderItem` filter serves all three news sections). -/
theorem C10_thm :
    (∀ n : NewsItem, n.title = "" → renderItem n = "") ∧
    (∀ hdr : String, ∀ n : NewsItem, ∀ rest : List NewsItem, n.title = "" →
      newsSection hdr (n :: rest) = hdr ++ strJoin (rest.map renderItem)) := by
  refine ⟨renderItem_empty_title, ?_⟩
  intro hdr n rest h
  unfold newsSection
  rw [if_neg (by simp)]
  rw [List.map_cons]
  show hdr ++ (renderItem n ++ strJoin (rest.map renderItem)) = _
  rw [renderItem_empty_title n h]
  rfl

/-- Witness for C10_thm: a concrete item with empty title and non-empty url
and content renders to nothing. -/
theorem C10_witness :
    renderItem { title := "", url := "https://example.com", content := "body" } = "" :=
  C10_thm.1 { title := "", url := "https://example.com", content := "body" } rfl

/-- Claim C2 (code bug): US quote lines with fewer than 7 fields and CN
quote lines with fewer than 5 fields are omitted with no entry, but a CN
quote line with exactly 5 comma-separated fields — fewer than the six
positions the parser consumes — is NOT omitted: the `len(parts) >= 5` guard
passes, `parts[5]` raises `IndexError`, and the handler stores an
`{"error": ...}` entry in the returned mapping for that symbol. -/
theorem C2_thm :
    parse_us_line "^DJI" "^DJI,2026-02-10,22:00:00,41900.00,42100.00,41800.00" = none ∧
    parse_cn_symbol "sh000001"
        "var hq_str_sh000001=\"上证指数,3450.10,3440.00,3455.20\"" = none ∧
    parse_cn_symbol "sh000001" cn_failing_line
        = some (CnEntry.err "list index out of range") ∧
    alookup "上证指数"
        (get_cn_stocks (fun c => if c = "sh000001" then cn_failing_line else ""))
      = some (CnEntry.err "list index out of range") := by
  refine ⟨by decide, by decide, by decide, by decide⟩

set_option maxRecDepth 20000 in
/-- Claim C3, counterexample: a `us_news` list containing only a
failure-sentinel item still produces the US news section heading in the
rendered report, so the section is not omitted entirely. -/
theorem C3_counterexample :
    strContains
        (generate_report "2026-02-10" [] []
          (some { us_news := [sentinelTimeout], cn_news := [], global_news := [] })
          "2026-02-10 08:30:00")
        "### 🇺🇸 美股新闻" = true := by
  decide

/-- Every item of a list of failure-sentinel items renders to nothing. -/
lemma strJoin_sentinel : ∀ items : List NewsItem,
    (∀ n ∈ items, strContains n.title "获取失败" = true) →
    strJoin (items.map renderItem) = ""
  | [], _ => rfl
  | n :: rest, hall => by
    rw [List.map_cons]
    show renderItem n ++ strJoin (rest.map renderItem) = ""
    rw [renderItem_sentinel n (hall n (List.mem_cons_self n rest)),
      strJoin_sentinel rest (fun q hq => hall q (List.mem_cons_of_mem _ hq))]
    rfl

set_option maxRecDepth 20000 in
/-- Claim C3, amended: a news section (heading included) is omitted exactly
when its raw item list is empty; sentinel items are filtered item by item,
so a list of only sentinel items yields the bare heading and nothing under
it; and in the end-to-end scenario (Dow-only US data, empty CN data, all
three news lists empty) the report carries the Dow close, no CN rows and no
news subsection heading. -/
theorem C3_amended_thm :
    (∀ hdr : String, newsSection hdr [] = "") ∧
    (∀ hdr : String, ∀ items : List NewsItem, items ≠ [] →
      (∀ n ∈ items, strContains n.title "获取失败" = true) →
      newsSection hdr items = hdr) ∧
    (strContains
        (generate_report "2026-02-10" dow_only []
          (some { us_news := [], cn_news := [], global_news := [] }) "2026-02-10 08:30:00")
        "42000.12" = true ∧
     strContains
        (generate_report "2026-02-10" dow_only []
          (some { us_news := [], cn_news := [], global_news := [] }) "2026-02-10 08:30:00")
        "### 🇺🇸 美股新闻" = false ∧
     strContains
        (generate_report "2026-02-10" dow_only []
          (some { us_news := [], cn_news := [], global_news := [] }) "2026-02-10 08:30:00")
        "### 🇨🇳 A 股新闻" = false ∧
     strContains
        (generate_report "2026-02-10" dow_only []
          (some { us_news := [], cn_news := [], global_news := [] }) "2026-02-10 08:30:00")
        "### 🌍 全球财经" = false ∧
     strContains
        (generate_report "2026-02-10" dow_only []
          (some { us_news := [], cn_news := [], global_news := [] }) "2026-02-10 08:30:00")
        "上证指数" = false) := by
  refine ⟨fun hdr => rfl, ?_, by decide, by decide, by decide, by decide, by decide⟩
  intro hdr items hne hall
  unfold newsSection
  rw [if_neg (by simpa using hne)]
  rw [strJoin_sentinel items hall, str_append_empty]

/-- Witness for C3_amended_thm: a one-element sentinel-only list produces
exactly the bare heading. -/
theorem C3_witness :
    newsSection "### 🇺🇸 美股新闻\n\n" [sentinelTimeout] = "### 🇺🇸 美股新闻\n\n" :=
  C3_amended_thm.2.1 "### 🇺🇸 美股新闻\n\n" [sentinelTimeout] (by decide) (by decide)

/-- Claim C9: two renders of the same snapshot differ only in the
wall-clock timestamp slot: the document factors as `pre ++ now ++ post`
with `pre` and `post` depending only on the date, the quote mappings and
the news bundle. -/
theorem C9_thm (date : String) (us_data : List (String × UsQuote))
    (cn_data : List (String × CnEntry)) (news_data : Option NewsBundle)
    (now1 now2 : String) :
    ∃ pre post : String,
      generate_report date us_data cn_data news_data now1 = pre ++ (now1 ++ post) ∧
      generate_report date us_data cn_data news_data now2 = pre ++ (now2 ++ post) :=
  ⟨report_head date, report_tail us_data cn_data news_data, rfl, rfl⟩

set_option maxRecDepth 40000 in
/-- Claim C4: starting from no README, running the updater for 2026-02-09
and then for 2026-02-10 yields the head of the template, then the marker
heading `## 最新行情`, then the second date's entry immediately below the
marker, then the first date's entry beneath it (nothing lost); the marker
occurs nowhere in the template head; and an index missing from the input
mappings (here the Dow) is simply omitted from that day's entry line. -/
theorem C4_thm :
    update_readme (some (update_readme none "2026-02-09" usA cnA)) "2026-02-10" usB cnB
        = readme_head ++ "## 最新行情\n" ++ latest_entry "2026-02-10" usB cnB
            ++ latest_entry "2026-02-09" usA cnA ++ "\n" ∧
    strContains readme_head "## 最新行情" = false ∧
    latest_entry "2026-02-09" usA_noDow cnA
        = "### 2026-02-09\n\n**美股**: 标普 6000.00 | 纳指 19000.00\n\n**A 股**: 上证 3450.00 | 深证 10500.00 | 创业板 2200.00\n\n---\n" := by
  refine ⟨by decide, by decide, by decide⟩

/-- Claim C8: for any fetch oracle and any symbol of the US tables whose
response carries the `"N/D"` no-data token, the mapping returned by
`get_us_stocks` has no entry under that symbol's display name. -/
theorem C8_thm (fetch : String → String) (sym name : String)
    (hmem : (sym, name) ∈ us_indices_tab ++ tech_stocks_tab)
    (hnd : strContains (fetch sym) "N/D" = true) :
    alookup name (get_us_stocks fetch) = none := by
  have huniq : ((us_indices_tab ++ tech_stocks_tab).map Prod.snd).Nodup := by decide
  have key : ∀ p : String × String, p ∈ us_indices_tab ++ tech_stocks_tab → p.2 = name →
      ∀ storedSym : String, parse_us_line storedSym (fetch p.1) = none := by
    intro p hp hpn storedSym
    have hm2 : (p.1, name) ∈ us_indices_tab ++ tech_stocks_tab := by
      rw [← hpn]
      exact hp
    have h1 : p.1 = sym := snd_unique huniq hm2 hmem
    rw [h1]
    exact parse_us_line_nd storedSym (fetch sym) hnd
  unfold get_us_stocks
  apply alookup_append_none
  · exact alookup_filterMap_none _ name us_indices_tab
      (fun p hp hpn => key p (List.mem_append_left _ hp) hpn p.1)
  · exact alookup_filterMap_none _ name tech_stocks_tab
      (fun p hp hpn => key p (List.mem_append_right _ hp) hpn (pyReplace p.1 ".US" ""))

/-- Witness for C8_thm: with a fetch oracle whose Dow line is `"N/D"`, the
result has no Dow entry. -/
theorem C8_witness : alookup "道琼斯" (get_us_stocks fetchND) = none :=
  C8_thm fetchND "^DJI" "道琼斯" (by decide) (by decide)
